import Mathlib

/-!
Verification of the Smart-traffic repository's timing and ticker core.

Shallow embedding of `src/traffic_logic.py`, the per-signal update logic of
`background_ticker` in `src/app.py`, and the `/override`, `/simulate` and
`/emergency` handlers of `src/routes.py`.

Modelling conventions:
- Python ints are `Int` (they are unbounded in Python).
- Phase and density values are the string literals used throughout the source
  (`"green"`, `"yellow"`, `"red"`, `"Low"`, `"Medium"`, `"High"`).
- `random.randint(1, 80)` (the simulator) is the sole nondeterministic
  primitive; it is modelled as an explicit `Int` parameter (or a
  `Nat → Int` stream for loops that draw repeatedly), with the range
  `1 ≤ v ∧ v ≤ 80` supplied as a hypothesis where a claim needs it.
- `float` arithmetic appears only in `calculate_efficiency`
  (`int(min/max * 100)`); it is modelled as exact integer truncation toward
  zero (`Int.tdiv`), which is what Python's `int()` does to the quotient.
- Store persistence (`update_signal`, `record_history`) is modelled by
  returning the updated signal together with the list of history snapshots
  appended by the operation; snapshot timestamps (wall-clock) are omitted.
- Geographic fields (`lat`, `lng`, `location`) are floats/descriptive data
  never touched by the timing core and are left out of the model; `name`
  stands in as a representative descriptive field.
-/

set_option autoImplicit false

namespace SmartTraffic

/-- One row of the `signals` table, restricted to the fields the timing core
reads or writes (`src/models.py`, `init_db`). `emergency` is stored as an
INTEGER 0/1 in SQLite and used as a truth value; it is a `Bool` here. -/
structure Signal where
  id : Nat
  name : String
  vehicle_count : Int
  green_time : Int
  density : String
  current_phase : String
  countdown : Int
  emergency : Bool
deriving DecidableEq, Repr

/-- One row of the `history` table (`record_history` in `src/models.py`),
without the wall-clock timestamp. -/
structure Snapshot where
  signal_id : Nat
  vehicle_count : Int
  green_time : Int
  density : String
deriving DecidableEq, Repr

/-- `calculate_green_time` from `src/traffic_logic.py`:
`> 40 → 70`, `>= 20 → 45`, else `25`. -/
def calculate_green_time (vehicle_count : Int) : Int :=
  if vehicle_count > 40 then 70
  else if vehicle_count ≥ 20 then 45
  else 25

/-- `classify_density` from `src/traffic_logic.py`. -/
def classify_density (vehicle_count : Int) : String :=
  if vehicle_count > 40 then "High"
  else if vehicle_count ≥ 20 then "Medium"
  else "Low"

/-- `determine_phase` from `src/traffic_logic.py`:
`countdown > 8 → green`, `countdown > 3 → yellow`, else `red`.
The `green_time` argument is accepted and ignored, as in the source. -/
def determine_phase (countdown green_time : Int) : String :=
  if countdown > 8 then "green"
  else if countdown > 3 then "yellow"
  else "red"

/-- `get_cycle_length` from `src/traffic_logic.py`: `green_time + 10`. -/
def get_cycle_length (green_time : Int) : Int :=
  green_time + 10

/-- `calculate_efficiency` from `src/traffic_logic.py`. The float expression
`int(min/max * 100)` is modelled as exact truncated division
`Int.tdiv (100 * min ..) (max ..)`. The `elif` chains are nested `if`s,
exactly as in the source. -/
def calculate_efficiency (vehicle_count green_time : Int)
    (current_phase : String) : Int :=
  let ideal_gt := calculate_green_time vehicle_count
  let timing_score :=
    if ideal_gt = 0 then 100
    else Int.tdiv (100 * min green_time ideal_gt) (max green_time ideal_gt)
  let phase_bonus :=
    if vehicle_count > 40 ∧ current_phase = "green" then 10
    else if vehicle_count < 10 ∧ current_phase = "red" then 5
    else 0
  let throughput_penalty :=
    if vehicle_count > 50 ∧ green_time < 45 then 20
    else if vehicle_count > 30 ∧ green_time < 25 then 15
    else 0
  max 0 (min 100 (timing_score + phase_bonus - throughput_penalty))

/-- The initial field set written by `create_app` in `src/app.py` (and by the
cycle-boundary branch of the ticker) for a signal whose demand is `vc`:
green time and density from the Timing Policy, countdown reset to the cycle
length, phase `"green"`. -/
def init_signal (id : Nat) (name : String) (vc : Int) : Signal :=
  { id := id
    name := name
    vehicle_count := vc
    green_time := calculate_green_time vc
    density := classify_density vc
    current_phase := "green"
    countdown := get_cycle_length (calculate_green_time vc)
    emergency := false }

/-- Claim C3: for every integer vehicle count `v`, `calculate_green_time` and
`classify_density` move together tier for tier: `v < 20` gives `25`/`"Low"`,
`20 ≤ v ≤ 40` gives `45`/`"Medium"`, and `v > 40` gives `70`/`"High"`. -/
theorem green_time_density_tiers (v : Int) :
    (v < 20 → calculate_green_time v = 25 ∧ classify_density v = "Low") ∧
    (20 ≤ v ∧ v ≤ 40 → calculate_green_time v = 45 ∧ classify_density v = "Medium") ∧
    (40 < v → calculate_green_time v = 70 ∧ classify_density v = "High") := by
  unfold calculate_green_time classify_density
  refine ⟨fun h => ?_, fun h => ?_, fun h => ?_⟩
  · rw [if_neg (by omega), if_neg (by omega), if_neg (by omega), if_neg (by omega)]
    exact ⟨rfl, rfl⟩
  · rw [if_neg (by omega), if_pos (by omega), if_neg (by omega), if_pos (by omega)]
    exact ⟨rfl, rfl⟩
  · rw [if_pos (by omega), if_pos (by omega)]
    exact ⟨rfl, rfl⟩

/-- Witness for C3: the tier theorem applied at the concrete counts 5, 30
and 45, one per tier. -/
theorem green_time_density_tiers_witness :
    (calculate_green_time 5 = 25 ∧ classify_density 5 = "Low") ∧
    (calculate_green_time 30 = 45 ∧ classify_density 30 = "Medium") ∧
    (calculate_green_time 45 = 70 ∧ classify_density 45 = "High") :=
  ⟨(green_time_density_tiers 5).1 (by decide),
   (green_time_density_tiers 30).2.1 (by decide),
   (green_time_density_tiers 45).2.2 (by decide)⟩

/-- Claim C4: for every countdown `c` and green time `g`, `determine_phase`
is `"green"` iff `c > 8`, `"yellow"` iff `3 < c ≤ 8`, `"red"` iff `c ≤ 3`,
independently of `g`; in particular `c = 9` is green, `c = 8` and `c = 4`
yellow, `c = 3` and `c = 0` red. -/
theorem determine_phase_thresholds (c g : Int) :
    (determine_phase c g = "green" ↔ c > 8) ∧
    (determine_phase c g = "yellow" ↔ 3 < c ∧ c ≤ 8) ∧
    (determine_phase c g = "red" ↔ c ≤ 3) ∧
    determine_phase 9 g = "green" ∧ determine_phase 8 g = "yellow" ∧
    determine_phase 4 g = "yellow" ∧ determine_phase 3 g = "red" ∧
    determine_phase 0 g = "red" := by
  unfold determine_phase
  refine ⟨?_, ?_, ?_, by norm_num, by norm_num, by norm_num, by norm_num, by norm_num⟩
  · rcases lt_or_le 8 c with h | h
    · simp [if_pos h, h]
    · rw [if_neg (by omega)]
      constructor
      · intro hs
        exfalso
        rcases lt_or_le 3 c with h3 | h3
        · rw [if_pos h3] at hs
          exact absurd hs (by decide)
        · rw [if_neg (by omega)] at hs
          exact absurd hs (by decide)
      · omega
  · rcases lt_or_le 8 c with h | h
    · rw [if_pos h]
      constructor
      · intro hs
        exact absurd hs (by decide)
      · omega
    · rw [if_neg (by omega)]
      rcases lt_or_le 3 c with h3 | h3
      · rw [if_pos h3]
        exact ⟨fun _ => ⟨h3, h⟩, fun _ => rfl⟩
      · rw [if_neg (by omega)]
        constructor
        · intro hs
          exact absurd hs (by decide)
        · omega
  · rcases lt_or_le 8 c with h | h
    · rw [if_pos h]
      constructor
      · intro hs
        exact absurd hs (by decide)
      · omega
    · rw [if_neg (by omega)]
      rcases lt_or_le 3 c with h3 | h3
      · rw [if_pos h3]
        constructor
        · intro hs
          exact absurd hs (by decide)
        · omega
      · rw [if_neg (by omega)]
        exact ⟨fun _ => by omega, fun _ => rfl⟩

/-- Witness for C4: the threshold theorem applied at `c = 9`, `g = 70`,
reading off the green direction of the first equivalence. -/
theorem determine_phase_thresholds_witness :
    determine_phase 9 70 = "green" :=
  (determine_phase_thresholds 9 70).1.mpr (by decide)

/-- `TICK_INTERVAL` from `src/app.py`. -/
def TICK_INTERVAL : Int := 3

/-- The per-signal body of one `background_ticker` pass in `src/app.py`
(lines 37-59), generalized over the elapsed seconds subtracted from the
countdown (`TICK_INTERVAL` in the source) as in the spec's
`Tick(signal, elapsed_seconds)`. `sim` is the value `simulate_vehicle_count()`
returns if the cycle boundary is reached. Returns the updated signal and the
history snapshots appended (one on rollover, none otherwise). -/
def tick (sim elapsed : Int) (sig : Signal) : Signal × List Snapshot :=
  if sig.emergency then (sig, [])
  else
    let new_countdown := sig.countdown - elapsed
    if new_countdown ≤ 0 then
      let vc := sim
      let gt := calculate_green_time vc
      let density := classify_density vc
      let cd := get_cycle_length gt
      let phase := determine_phase cd gt
      ({ sig with vehicle_count := vc, green_time := gt, density := density,
                  countdown := cd, current_phase := phase },
       [⟨sig.id, vc, gt, density⟩])
    else
      ({ sig with countdown := new_countdown,
                  current_phase := determine_phase new_countdown sig.green_time },
       [])

/-- Every green time the Timing Policy produces is at least 25 seconds. -/
theorem le_calculate_green_time (v : Int) : 25 ≤ calculate_green_time v := by
  unfold calculate_green_time
  split
  · norm_num
  · split <;> norm_num

/-- At the start of a fresh cycle the countdown is the full cycle length,
which always exceeds the green threshold 8, so the phase is `"green"`. -/
theorem determine_phase_fresh_cycle (v g : Int) :
    determine_phase (get_cycle_length (calculate_green_time v)) g = "green" := by
  have h := le_calculate_green_time v
  unfold determine_phase get_cycle_length
  rw [if_pos (by omega)]

/-- Claim C5: a non-emergency signal initialized with vehicle count 45 has
green time 70, density High, countdown 80, phase green; one Tick with
elapsed 75 leaves countdown 5, phase yellow, and appends no snapshot; a
further Tick with elapsed 10 drives the countdown below zero, stores the
fresh simulated count `sim2`, appends exactly one snapshot, and resets the
countdown to `get_cycle_length` of the new green time with phase green. -/
theorem high_demand_tick_scenario (id : Nat) (name : String) (sim1 sim2 : Int) :
    (init_signal id name 45).green_time = 70 ∧
    (init_signal id name 45).density = "High" ∧
    (init_signal id name 45).countdown = 80 ∧
    (init_signal id name 45).current_phase = "green" ∧
    (tick sim1 75 (init_signal id name 45)).1.countdown = 5 ∧
    (tick sim1 75 (init_signal id name 45)).1.current_phase = "yellow" ∧
    (tick sim1 75 (init_signal id name 45)).2 = [] ∧
    (tick sim2 10 (tick sim1 75 (init_signal id name 45)).1).1.vehicle_count = sim2 ∧
    (tick sim2 10 (tick sim1 75 (init_signal id name 45)).1).1.countdown =
      get_cycle_length (calculate_green_time sim2) ∧
    (tick sim2 10 (tick sim1 75 (init_signal id name 45)).1).1.current_phase = "green" ∧
    (tick sim2 10 (tick sim1 75 (init_signal id name 45)).1).2 =
      [⟨id, sim2, calculate_green_time sim2, classify_density sim2⟩] := by
  refine ⟨rfl, rfl, rfl, rfl, rfl, rfl, rfl, rfl, rfl, ?_, rfl⟩
  show determine_phase (get_cycle_length (calculate_green_time sim2))
    (calculate_green_time sim2) = "green"
  exact determine_phase_fresh_cycle sim2 _

/-- The `/emergency` POST handler (`toggle_emergency` in `src/routes.py`) for
an existing signal. Enabling writes `emergency`, `current_phase = "green"`
and the 999 sentinel countdown; disabling clears `emergency` and recomputes
the cycle fields from the signal's existing vehicle count. No snapshot is
appended either way. -/
def set_emergency (sig : Signal) (enable : Bool) : Signal :=
  if enable then
    { sig with emergency := true, current_phase := "green", countdown := 999 }
  else
    let gt := calculate_green_time sig.vehicle_count
    { sig with emergency := false, current_phase := "green",
               countdown := get_cycle_length gt, green_time := gt }

/-- Claim C6: enabling then disabling emergency mode on any signal leaves
`vehicle_count` and `density` as they were, and leaves the cycle fields as
if freshly initialized from the signal's vehicle count: green time from the
Timing Policy, countdown the full cycle length, phase green. -/
theorem emergency_round_trip (s : Signal) :
    (set_emergency (set_emergency s true) false).vehicle_count = s.vehicle_count ∧
    (set_emergency (set_emergency s true) false).density = s.density ∧
    (set_emergency (set_emergency s true) false).green_time =
      calculate_green_time s.vehicle_count ∧
    (set_emergency (set_emergency s true) false).countdown =
      get_cycle_length (calculate_green_time s.vehicle_count) ∧
    (set_emergency (set_emergency s true) false).current_phase = "green" := by
  unfold set_emergency
  exact ⟨rfl, rfl, rfl, rfl, rfl⟩

/-- Outcome of an HTTP handler in the model: `ok` is a 2xx response, `error`
is an uncaught exception surfacing as a 500. -/
inductive RouteResult where
  | ok
  | error
deriving DecidableEq, Repr

/-- The update dict built by `override_signal` in `src/routes.py` (lines
60-77), applied to the signal: the `vehicle_count` block first (derived
green time, density, countdown, phase green), then the `green_time` block,
overwriting `green_time`, `countdown` and `current_phase`. -/
def override_apply (sig : Signal) (vc? gt? : Option Int) : Signal :=
  let s1 :=
    match vc? with
    | some vc =>
        { sig with vehicle_count := vc,
                   green_time := calculate_green_time vc,
                   density := classify_density vc,
                   countdown := get_cycle_length (calculate_green_time vc),
                   current_phase := "green" }
    | none => sig
  match gt? with
  | some gt =>
      { s1 with green_time := gt,
                countdown := get_cycle_length gt,
                current_phase := "green" }
  | none => s1

/-- The `/override` POST handler (`override_signal` in `src/routes.py`) for
an existing signal. A request field is `none` when absent from the JSON body
and `some none` when present but rejected by `int()` — which raises before
any store write, so the signal is unchanged and no snapshot is appended. On
the success path the handler persists the updates, if any, and appends
exactly one history snapshot of the final persisted values; when neither
field is usable it writes nothing and still answers ok. -/
def override_route (sig : Signal) (vc_field gt_field : Option (Option Int)) :
    RouteResult × Signal × List Snapshot :=
  if vc_field = some none ∨ gt_field = some none then (.error, sig, [])
  else
    let vc? := vc_field.join
    let gt? := gt_field.join
    if vc?.isSome || gt?.isSome then
      let s' := override_apply sig vc? gt?
      (.ok, s', [⟨sig.id, s'.vehicle_count, s'.green_time, s'.density⟩])
    else (.ok, sig, [])

/-- A concrete non-emergency signal in the Low tier (vehicle count 10), its
cycle fields initialized from that count. -/
def exampleLowSignal : Signal := init_signal 2 "Signal-B" 10

/-- Claim C7: an override supplying only `green_time = g` sets the green
time to `g`, resets the countdown to the cycle length of `g` and the phase
to green, leaves every other field unchanged, and appends exactly one
history snapshot of the final persisted values; in particular on a signal
with vehicle count 10 and `g = 60` the countdown becomes 70 and the density
stays `"Low"`. -/
theorem override_green_time_only (sig : Signal) (g : Int) :
    override_route sig none (some (some g)) =
      (RouteResult.ok,
       { sig with green_time := g, countdown := get_cycle_length g,
                  current_phase := "green" },
       [⟨sig.id, sig.vehicle_count, g, sig.density⟩]) ∧
    (override_route exampleLowSignal none (some (some 60))).2.1.green_time = 60 ∧
    (override_route exampleLowSignal none (some (some 60))).2.1.countdown = 70 ∧
    (override_route exampleLowSignal none (some (some 60))).2.1.current_phase = "green" ∧
    (override_route exampleLowSignal none (some (some 60))).2.1.density = "Low" ∧
    (override_route exampleLowSignal none (some (some 60))).2.2 =
      [⟨2, 10, 60, "Low"⟩] := by
  refine ⟨?_, rfl, rfl, rfl, rfl, rfl⟩
  unfold override_route override_apply
  rw [if_neg (by simp)]
  rfl

/-- Counterexample to claim C9 as stated: a request with both override
fields missing is not rejected as invalid input — the handler answers ok
(it does leave the signal unmutated with no snapshot). -/
theorem override_missing_fields_not_rejected :
    override_route exampleLowSignal none none =
      (RouteResult.ok, exampleLowSignal, []) ∧
    RouteResult.ok ≠ RouteResult.error := by
  exact ⟨rfl, by decide⟩

/-- Claim C9 (amended): a request whose `vehicle_count` or `green_time`
field fails integer parsing raises before any store write — an error
response with no field mutated and no snapshot appended; a request with
both fields missing is not rejected but is a pure no-op: ok response, no
mutation, no snapshot. -/
theorem override_invalid_input_no_mutation (sig : Signal)
    (vcf gtf : Option (Option Int)) :
    (vcf = some none ∨ gtf = some none →
      override_route sig vcf gtf = (RouteResult.error, sig, [])) ∧
    override_route sig none none = (RouteResult.ok, sig, []) := by
  constructor
  · intro h
    unfold override_route
    rw [if_pos h]
  · rfl

/-- Witness for C9's amended theorem: a malformed `vehicle_count` field on
the concrete Low-tier signal yields an error with the signal unchanged and
no snapshot. -/
theorem override_invalid_input_no_mutation_witness :
    override_route exampleLowSignal (some none) none =
      (RouteResult.error, exampleLowSignal, []) :=
  (override_invalid_input_no_mutation exampleLowSignal (some none) none).1
    (Or.inl rfl)

/-- Counterexample to claim C8 as stated: the override handler stores the
caller's integer unvalidated, so supplying `vehicle_count = -5` leaves a
negative vehicle count on the signal. -/
theorem override_negative_vehicle_count :
    (override_route exampleLowSignal (some (some (-5))) none).2.1.vehicle_count
      = -5 ∧
    ¬ (0 ≤ (override_route exampleLowSignal
        (some (some (-5))) none).2.1.vehicle_count) := by
  exact ⟨rfl, by decide⟩

/-- Per-signal body of the `/simulate` handler (`simulate` in
`src/routes.py`, lines 92-108): an emergency signal is passed through with
no store write and no snapshot; any other signal gets the fresh simulated
count `sim`, derived green time and density, countdown reset to the cycle
length, phase green, and exactly one history snapshot. -/
def simulate_one (sim : Int) (sig : Signal) : Signal × List Snapshot :=
  if sig.emergency then (sig, [])
  else
    let vc := sim
    let gt := calculate_green_time vc
    let density := classify_density vc
    ({ sig with vehicle_count := vc, green_time := gt, density := density,
                countdown := get_cycle_length gt, current_phase := "green" },
     [⟨sig.id, vc, gt, density⟩])

/-- Claim C8 (amended): signal creation and every simulator-driven write
(Tick rollover, simulate-all) keep `vehicle_count` non-negative whenever the
simulator output is in its documented range `[1, 80]`, the green-time-only
override and the emergency toggles never touch `vehicle_count`, and the
count override stores exactly the supplied integer — so non-negativity is
preserved there if and only if the caller supplies a non-negative value. -/
theorem vehicle_count_nonneg_preservation (sig : Signal) (elapsed sim n : Int)
    (hsim : 1 ≤ sim ∧ sim ≤ 80) (hsig : 0 ≤ sig.vehicle_count) (hn : 0 ≤ n) :
    0 ≤ (tick sim elapsed sig).1.vehicle_count ∧
    0 ≤ (simulate_one sim sig).1.vehicle_count ∧
    (override_route sig (some (some n)) none).2.1.vehicle_count = n ∧
    0 ≤ (override_route sig (some (some n)) none).2.1.vehicle_count ∧
    0 ≤ (override_route sig none (some (some n))).2.1.vehicle_count ∧
    0 ≤ (set_emergency sig true).vehicle_count ∧
    0 ≤ (set_emergency sig false).vehicle_count ∧
    0 ≤ (init_signal sig.id sig.name sim).vehicle_count := by
  obtain ⟨hsim1, hsim80⟩ := hsim
  have hs0 : (0 : Int) ≤ sim := by omega
  have hov : (override_route sig (some (some n)) none).2.1.vehicle_count = n := by
    unfold override_route override_apply
    rw [if_neg (by simp)]
    rfl
  refine ⟨?_, ?_, hov, ?_, ?_, ?_, ?_, ?_⟩
  · by_cases he : sig.emergency = true
    · simp [tick, he, hsig]
    · by_cases hc : sig.countdown - elapsed ≤ 0
      · simp [tick, he, hc, hs0]
      · simp [tick, he, hc, hsig]
  · by_cases he : sig.emergency = true
    · simp [simulate_one, he, hsig]
    · simp [simulate_one, he, hs0]
  · rw [hov]
    exact hn
  · exact hsig
  · exact hsig
  · exact hsig
  · exact hs0

/-- Witness for C8's amended theorem: the preservation conjunction applied
to the concrete Low-tier signal with elapsed 3, simulator draw 33 and
override value 7. -/
theorem vehicle_count_nonneg_preservation_witness :
    0 ≤ (tick 33 3 exampleLowSignal).1.vehicle_count ∧
    0 ≤ (simulate_one 33 exampleLowSignal).1.vehicle_count ∧
    (override_route exampleLowSignal (some (some 7)) none).2.1.vehicle_count = 7 ∧
    0 ≤ (override_route exampleLowSignal (some (some 7)) none).2.1.vehicle_count ∧
    0 ≤ (override_route exampleLowSignal none (some (some 7))).2.1.vehicle_count ∧
    0 ≤ (set_emergency exampleLowSignal true).vehicle_count ∧
    0 ≤ (set_emergency exampleLowSignal false).vehicle_count ∧
    0 ≤ (init_signal exampleLowSignal.id exampleLowSignal.name 33).vehicle_count :=
  vehicle_count_nonneg_preservation exampleLowSignal 3 33 7
    (by decide) (by decide) (by decide)

/-- The `/simulate` handler over the whole signal table, signals in table
order; `src i` is the simulator draw available to the signal at position
`i`. Returns, per signal, the persisted signal and the snapshots appended
for it. -/
def simulate_all (src : Nat → Int) : List Signal → List (Signal × List Snapshot)
  | [] => []
  | sig :: rest =>
      simulate_one (src 0) sig :: simulate_all (fun i => src (i + 1)) rest

/-- Position `i` of a `simulate_all` pass is the per-signal body applied to
position `i` of the input with the `i`-th draw. -/
theorem simulate_all_getElem? (src : Nat → Int) (sigs : List Signal) (i : Nat) :
    (simulate_all src sigs)[i]? = Option.map (simulate_one (src i)) sigs[i]? := by
  induction sigs generalizing src i with
  | nil => simp [simulate_all]
  | cons sig rest ih =>
    cases i with
    | zero => simp [simulate_all]
    | succ j => simpa [simulate_all] using ih (fun i => src (i + 1)) j

/-- A concrete signal pinned in emergency mode. -/
def exampleEmergencySignal : Signal :=
  set_emergency (init_signal 3 "Signal-C" 30) true

/-- Claim C10: in a simulate-all pass, an emergency-mode signal is passed
through entirely unchanged with no snapshot, while a non-emergency signal
gets the fresh simulated count, derived green time and density, countdown
reset to the cycle length, phase green, and exactly one snapshot. -/
theorem simulate_all_frame (src : Nat → Int) (sigs : List Signal) (i : Nat)
    (h : i < sigs.length) :
    (sigs[i].emergency = true →
      (simulate_all src sigs)[i]? = some (sigs[i], [])) ∧
    (sigs[i].emergency = false →
      (simulate_all src sigs)[i]? = some
        ({ sigs[i] with
             vehicle_count := src i,
             green_time := calculate_green_time (src i),
             density := classify_density (src i),
             countdown := get_cycle_length (calculate_green_time (src i)),
             current_phase := "green" },
         [⟨sigs[i].id, src i, calculate_green_time (src i),
           classify_density (src i)⟩])) := by
  have hg := simulate_all_getElem? src sigs i
  rw [List.getElem?_eq_getElem h] at hg
  constructor
  · intro he
    rw [hg]
    simp [simulate_one, he]
  · intro he
    rw [hg]
    simp [simulate_one, he]

/-- Witness for C10: a one-element table holding the emergency signal is
passed through unchanged with no snapshot. -/
theorem simulate_all_frame_witness :
    (simulate_all (fun _ => 33) [exampleEmergencySignal])[0]? =
      some (exampleEmergencySignal, []) :=
  (simulate_all_frame (fun _ => 33) [exampleEmergencySignal] 0 (by decide)).1
    (by decide)

/-- One pass of the loop in `background_ticker` (`src/app.py`, lines 33-61).
The `try` block wraps the whole loop over the signals, so a store exception
while handling one signal is caught only outside the loop: the signals not
yet reached keep their previous state for this pass, and the ticker then
sleeps and starts the next pass. `fails id` says the store write for signal
`id` raises; `src i` is the simulator draw available to the signal at
position `i`; emergency signals are skipped with no store call. -/
def run_pass (fails : Nat → Bool) (src : Nat → Int) : List Signal → List Signal
  | [] => []
  | sig :: rest =>
    if sig.emergency then
      sig :: run_pass fails (fun i => src (i + 1)) rest
    else if fails sig.id then
      sig :: rest
    else
      (tick (src 0) TICK_INTERVAL sig).1 ::
        run_pass fails (fun i => src (i + 1)) rest

/-- The same pass when no store write fails: every non-emergency signal is
ticked, emergency signals are skipped. -/
def tick_all (src : Nat → Int) : List Signal → List Signal
  | [] => []
  | sig :: rest =>
    (if sig.emergency then sig else (tick (src 0) TICK_INTERVAL sig).1) ::
      tick_all (fun i => src (i + 1)) rest

/-- A concrete non-emergency signal in the High tier (vehicle count 45). -/
def exampleHighSignal : Signal := init_signal 1 "Signal-A" 45

/-- Counterexample to claim C1 as stated: with a store failure on the first
signal of the pass, the pass returns with the second signal untouched, even
though its Tick would have decremented its countdown — so an error on one
signal does abort the pass for the remaining signals. -/
theorem ticker_pass_not_isolated :
    run_pass (fun i => i == 1) (fun _ => 33)
        [exampleHighSignal, exampleLowSignal] =
      [exampleHighSignal, exampleLowSignal] ∧
    (tick 33 TICK_INTERVAL exampleLowSignal).1.countdown ≠
      exampleLowSignal.countdown := by
  decide

/-- Claim C1 (amended): the `try` in `background_ticker` wraps the whole
pass, so the first store failure ends the pass early: every signal before
the first failing one is ticked exactly as in a failure-free pass, and the
failing signal and every signal after it keep their previous state; the
exception is caught and logged outside the loop, so the ticker survives to
run its next pass. -/
theorem run_pass_stops_at_first_failure (fails : Nat → Bool) (src : Nat → Int)
    (xs : List Signal) (y : Signal) (ys : List Signal)
    (hxs : ∀ x ∈ xs, x.emergency = true ∨ fails x.id = false)
    (hy : y.emergency = false) (hfy : fails y.id = true) :
    run_pass fails src (xs ++ y :: ys) = tick_all src xs ++ y :: ys := by
  induction xs generalizing src with
  | nil =>
    simp only [List.nil_append, tick_all]
    simp [run_pass, hy, hfy]
  | cons x xs ih =>
    have hx := hxs x (List.mem_cons_self x xs)
    have hxs' : ∀ z ∈ xs, z.emergency = true ∨ fails z.id = false :=
      fun z hz => hxs z (List.mem_cons_of_mem x hz)
    by_cases hxe : x.emergency = true
    · simp only [List.cons_append, run_pass, tick_all, hxe, if_true,
        List.append_eq]
      rw [ih (fun i => src (i + 1)) hxs']
    · have hxf : fails x.id = false := hx.resolve_left hxe
      simp only [List.cons_append, run_pass, tick_all, hxe, hxf,
        Bool.false_eq_true, if_false, List.append_eq]
      rw [ih (fun i => src (i + 1)) hxs']

/-- Witness for C1's amended theorem: with the failure on the High signal's
id and the Low signal first, the pass ticks the Low signal and leaves the
High signal untouched. -/
theorem run_pass_stops_at_first_failure_witness :
    run_pass (fun i => i == 1) (fun _ => 33)
        [exampleLowSignal, exampleHighSignal] =
      tick_all (fun _ => 33) [exampleLowSignal] ++ exampleHighSignal :: [] :=
  run_pass_stops_at_first_failure (fun i => i == 1) (fun _ => 33)
    [exampleLowSignal] exampleHighSignal []
    (by
      intro x hx
      rw [List.mem_singleton] at hx
      subst hx
      right
      rfl)
    rfl rfl

/-- The spec's five-step reference definition of `calculate_efficiency` as
claim C2 states it: `timing_score` uses `round` — computed exactly as
`(2 * (100 * min ..) + max ..) / (2 * max ..)`, the round-half-up of the
rational `100 * min / max` for a positive divisor — and the two phase
bonuses are evaluated independently and summed. Written from the spec's
words, to be compared with the source's `calculate_efficiency`. -/
def calculate_efficiency_spec_round (vehicle_count green_time : Int)
    (current_phase : String) : Int :=
  let ideal_gt := calculate_green_time vehicle_count
  let timing_score :=
    if ideal_gt = 0 then 100
    else (2 * (100 * min green_time ideal_gt) + max green_time ideal_gt) /
         (2 * max green_time ideal_gt)
  let phase_bonus :=
    (if vehicle_count > 40 ∧ current_phase = "green" then 10 else 0) +
    (if vehicle_count < 10 ∧ current_phase = "red" then 5 else 0)
  let throughput_penalty :=
    if vehicle_count > 50 ∧ green_time < 45 then 20
    else if vehicle_count > 30 ∧ green_time < 25 then 15
    else 0
  max 0 (min 100 (timing_score + phase_bonus - throughput_penalty))

/-- Counterexample to claim C2 as stated: at `vehicle_count = 45`,
`green_time = 25` (positive), phase `"red"`, the source truncates
`100 * 25 / 70 = 35.71..` to 35 while the claimed `round` gives 36. -/
theorem efficiency_round_claim_false :
    calculate_efficiency 45 25 "red" = 35 ∧
    calculate_efficiency_spec_round 45 25 "red" = 36 ∧
    calculate_efficiency 45 25 "red" ≠
      calculate_efficiency_spec_round 45 25 "red" := by
  decide

/-- The five-step reference definition amended: `timing_score` truncates the
quotient toward zero (Python's `int()`), instead of rounding; all other
steps as the claim states them. -/
def calculate_efficiency_spec_trunc (vehicle_count green_time : Int)
    (current_phase : String) : Int :=
  let ideal_gt := calculate_green_time vehicle_count
  let timing_score :=
    if ideal_gt = 0 then 100
    else Int.tdiv (100 * min green_time ideal_gt) (max green_time ideal_gt)
  let phase_bonus :=
    (if vehicle_count > 40 ∧ current_phase = "green" then 10 else 0) +
    (if vehicle_count < 10 ∧ current_phase = "red" then 5 else 0)
  let throughput_penalty :=
    if vehicle_count > 50 ∧ green_time < 45 then 20
    else if vehicle_count > 30 ∧ green_time < 25 then 15
    else 0
  max 0 (min 100 (timing_score + phase_bonus - throughput_penalty))

/-- The source's `elif` chain for the phase bonus agrees with evaluating
both bonuses and summing, because their guards exclude each other
(`vehicle_count > 40` versus `vehicle_count < 10`). -/
theorem phase_bonus_chain_eq_sum (vc : Int) (phase : String) :
    (if vc > 40 ∧ phase = "green" then (10 : Int)
     else if vc < 10 ∧ phase = "red" then 5 else 0) =
    (if vc > 40 ∧ phase = "green" then (10 : Int) else 0) +
    (if vc < 10 ∧ phase = "red" then (5 : Int) else 0) := by
  by_cases hA : vc > 40 ∧ phase = "green"
  · have hB : ¬(vc < 10 ∧ phase = "red") := by
      rintro ⟨hlt, _⟩
      exact absurd hA.1 (by omega)
    rw [if_pos hA, if_pos hA, if_neg hB, add_zero]
  · rw [if_neg hA, if_neg hA, zero_add]

/-- Claim C2 (amended): for every vehicle count, positive green time and
phase, the source's `calculate_efficiency` equals the five-step reference
definition with `timing_score` truncating (not rounding) the quotient. -/
theorem calculate_efficiency_matches_spec (vc gt : Int) (phase : String)
    (hgt : 0 < gt) :
    calculate_efficiency vc gt phase =
      calculate_efficiency_spec_trunc vc gt phase := by
  simp only [calculate_efficiency, calculate_efficiency_spec_trunc]
  rw [phase_bonus_chain_eq_sum]

/-- Witness for C2's amended theorem, at vehicle count 45, green time 70,
phase green. -/
theorem calculate_efficiency_matches_spec_witness :
    0 < (70 : Int) ∧
    calculate_efficiency 45 70 "green" =
      calculate_efficiency_spec_trunc 45 70 "green" :=
  ⟨by decide, calculate_efficiency_matches_spec 45 70 "green" (by decide)⟩

end SmartTraffic
